import Mathlib

/-!
Shallow embedding of the pysdtoken repository (a ctypes wrapper around the
RSA SecurID stauto32 soft-token service library) and proofs about the
behaviour of its wrapper code.

The native library itself is opaque: every native call is modelled by the
values the call returns and the values it writes into the buffers that the
wrapper passes to it.  Those values enter each embedded wrapper function as
explicit parameters, and each embedded function also returns the ordered
list of native entry points that the wrapper invokes on that path.

Primary source: src/pysdtoken/pysdtoken.py and src/pysdtoken/_sdauto.py.
The repository also contains a legacy flat module src/pysdtoken.py; the
parts of it that the claims mention are embedded under names starting with
legacy.
-/

set_option linter.unusedVariables false
set_option linter.unreachableTactic false
set_option linter.unusedTactic false

namespace Pysdtoken

/-! ## Byte buffers and UTF-8 decoding

ctypes buffers are modelled as lists of byte values (naturals below 256).
-/

/-- The value of a ctypes c_char buffer or c_char array field: the bytes up
to, and not including, the first NUL byte.  ctypes applies this truncation
both for create_string_buffer values and for c_char array struct fields. -/
def cValue (buf : List Nat) : List Nat := buf.takeWhile (fun b => b != 0)

/-- Whether a byte is a UTF-8 continuation byte (0b10xxxxxx). -/
def isCont (b : Nat) : Bool := 0x80 ≤ b && b < 0xc0

/-- Strict UTF-8 decoding of a byte list into characters, mirroring the
decode utf-8 calls of the wrapper (strict mode): it rejects invalid lead
bytes, truncated sequences, overlong encodings, surrogate code points and
values above 0x10FFFF.  The first argument is fuel; any fuel of at least
the length of the list gives the decoded result. -/
def utf8DecodeAux : Nat → List Nat → Option (List Char)
  | _, [] => some []
  | 0, _ :: _ => none
  | fuel + 1, b0 :: rest =>
    if b0 < 0x80 then
      (utf8DecodeAux fuel rest).map (fun cs => Char.ofNat b0 :: cs)
    else if 0xc0 ≤ b0 && b0 < 0xe0 then
      match rest with
      | b1 :: rest1 =>
        if isCont b1 then
          let r := (b0 - 0xc0) * 0x40 + (b1 - 0x80)
          if 0x80 ≤ r then
            (utf8DecodeAux fuel rest1).map (fun cs => Char.ofNat r :: cs)
          else none
        else none
      | [] => none
    else if 0xe0 ≤ b0 && b0 < 0xf0 then
      match rest with
      | b1 :: b2 :: rest2 =>
        if isCont b1 && isCont b2 then
          let r := (b0 - 0xe0) * 0x1000 + (b1 - 0x80) * 0x40 + (b2 - 0x80)
          if 0x800 ≤ r && !(0xd800 ≤ r && r < 0xe000) then
            (utf8DecodeAux fuel rest2).map (fun cs => Char.ofNat r :: cs)
          else none
        else none
      | _ => none
    else if 0xf0 ≤ b0 && b0 < 0xf8 then
      match rest with
      | b1 :: b2 :: b3 :: rest3 =>
        if isCont b1 && isCont b2 && isCont b3 then
          let r := (b0 - 0xf0) * 0x40000 + (b1 - 0x80) * 0x1000 +
                     (b2 - 0x80) * 0x40 + (b3 - 0x80)
          if 0x10000 ≤ r && r < 0x110000 then
            (utf8DecodeAux fuel rest3).map (fun cs => Char.ofNat r :: cs)
          else none
        else none
      | _ => none
    else none

/-- Decode a byte list as UTF-8 into a string, or none when the bytes are
not valid UTF-8 (in the wrapper this raises UnicodeDecodeError). -/
def utf8Decode (bs : List Nat) : Option String :=
  (utf8DecodeAux bs.length bs).map String.mk

example : utf8Decode [72, 105] = some "Hi" := by decide
example : utf8Decode [0xff] = none := by decide
example : utf8Decode [0xc3, 0xa9] = some "é" := by decide
example : cValue [65, 66, 0, 67] = [65, 66] := by decide

/-! ## Struct layouts (src/pysdtoken/_sdauto.py and legacy src/pysdtoken.py)

The record shapes are modelled as lists of named fields with their ctypes
field types, together with whether the class sets the ctypes packing
attribute (underscore pack underscore) to 1.  Field types use the Windows
sizes (DWORD, c_int, c_int32 and c_long are all 4 bytes there; on Darwin
the modules alias DWORD to c_long, which is 8 bytes). -/

inductive CType
  | dword
  | cint
  | cint32
  | clong
  | charArray (n : Nat)
  | cubyteArray (n : Nat)
  deriving DecidableEq

/-- Byte size of a ctypes field type, using the Windows sizes. -/
def CType.byteSize : CType → Nat
  | .dword => 4
  | .cint => 4
  | .cint32 => 4
  | .clong => 4
  | .charArray n => n
  | .cubyteArray n => n

structure FieldSpec where
  fname : String
  ftype : CType
  deriving DecidableEq

structure StructSpec where
  packed : Bool
  fieldList : List FieldSpec
  deriving DecidableEq

/-- Total byte size of a packed struct: the sum of its field sizes. -/
def structSize (s : StructSpec) : Nat :=
  (s.fieldList.map (fun f => f.ftype.byteSize)).sum

/-- Embeds struct_tagTOKENBASICINFO of src/pysdtoken/_sdauto.py. -/
def sdauto_struct_tagTOKENBASICINFO : StructSpec :=
  ⟨true,
   [⟨"dwSize", .dword⟩,
    ⟨"serial_number", .charArray 24⟩,
    ⟨"username", .charArray 24⟩,
    ⟨"deviceID", .charArray 24⟩,
    ⟨"descriptor", .charArray 48⟩]⟩

/-- Embeds struct_tagTOKENERRORINFO of src/pysdtoken/_sdauto.py. -/
def sdauto_struct_tagTOKENERRORINFO : StructSpec :=
  ⟨true,
   [⟨"error", .cint⟩,
    ⟨"error_string", .charArray 24⟩,
    ⟨"detailed_error_string", .charArray 64⟩]⟩

/-- Embeds struct_CK_DATE of src/pysdtoken/_sdauto.py. -/
def sdauto_struct_CK_DATE : StructSpec :=
  ⟨true,
   [⟨"year", .cubyteArray 4⟩,
    ⟨"month", .cubyteArray 2⟩,
    ⟨"day", .cubyteArray 2⟩]⟩

/-- Embeds struct_tagTOKENERRORINFO of the legacy module src/pysdtoken.py. -/
def legacy_struct_tagTOKENERRORINFO : StructSpec :=
  ⟨true,
   [⟨"error", .cint32⟩,
    ⟨"error_string", .charArray 24⟩,
    ⟨"detailed_error_string", .charArray 64⟩]⟩

/-- Embeds struct_tagTOKENBASICINFO of the legacy module src/pysdtoken.py:
dwSize is declared c_long, the serial field is spelled serialnumber, and
the descriptor array is 64 chars, not 48. -/
def legacy_struct_tagTOKENBASICINFO : StructSpec :=
  ⟨true,
   [⟨"dwSize", .clong⟩,
    ⟨"serialnumber", .charArray 24⟩,
    ⟨"username", .charArray 24⟩,
    ⟨"deviceID", .charArray 24⟩,
    ⟨"descriptor", .charArray 64⟩]⟩

/-- Embeds struct_CK_DATE of the legacy module src/pysdtoken.py.  That
class assigns the plain names pack and fields (with single leading and no
trailing underscore decorations), which ctypes ignores: the resulting
Structure subclass declares no fields at all and is not packed. -/
def legacy_struct_CK_DATE : StructSpec := ⟨false, []⟩

/-! ## Native entry points -/

/-- The vendor-exported entry points that src/pysdtoken/pysdtoken.py
invokes.  Every embedded wrapper returns the ordered list of the entry
points it calls. -/
inductive NativeFn
  | openTokenService
  | closeTokenService
  | enumToken
  | getCurrentCode
  | getNextCode
  | getTokenExpirationDate
  | getTokenError
  deriving DecidableEq

/-- The exported symbol name each native call resolves on the library
object, exactly as the attribute accesses in src/pysdtoken/pysdtoken.py
spell them. -/
def NativeFn.exportName : NativeFn → String
  | .openTokenService => "OpenTokenService"
  | .closeTokenService => "CloseTokenService"
  | .enumToken => "EnumToken"
  | .getCurrentCode => "GetCurrentCode"
  | .getNextCode => "GetNextCode"
  | .getTokenExpirationDate => "GetTokenExpirationDate"
  | .getTokenError => "GetTokenError"

/-- The exported symbol that each method of the legacy module
src/pysdtoken.py invokes, keyed by method name.  Note the expiration
method of the legacy module calls GetTokenExpiration, without the Date
suffix used by the package module. -/
def legacyNativeExport : String → Option String
  | "open_service" => some "OpenTokenService"
  | "close_service" => some "CloseTokenService"
  | "count_tokens" => some "EnumToken"
  | "get_tokens" => some "EnumToken"
  | "get_token_current_code" => some "GetCurrentCode"
  | "get_token_expiration_date" => some "GetTokenExpiration"
  | "get_token_error" => some "GetTokenError"
  | _ => none

/-- Python exception classes that the embedded wrapper code can raise. -/
inductive PyErr
  | valueError
  | unicodeDecodeError
  | attributeError
  | referenceError
  deriving DecidableEq

/-! ## Data model of the wrapper objects -/

/-- The tuple of valid pin styles, SDProcess.valid_pin_styles. -/
def valid_pin_styles : List String := ["PINless", "PINPad-style", "Fob-style"]

/-- The configuration an SDProcess instance carries once initialized:
its pin style and the validated pin and tokencode lengths. -/
structure SDConfig where
  pin_style : String
  pin_length : Int
  tokencode_length : Int
  deriving DecidableEq

/-- A Token object as built by Token.__init__: the serial, an optional
reference to the owning SDProcess, the optional token data fields, the
default flag and the pin style.  deviceID and descriptor are stored as the
raw bytes ctypes handed over (NUL-truncated but not decoded). -/
structure Token where
  serial_number : String
  process : Option SDConfig
  username : Option String
  deviceID : Option (List Nat)
  descriptor : Option (List Nat)
  is_default : Bool
  pin_style : String
  deriving DecidableEq

/-- The named tuple TokenInfo returned by Token.get_current_code and
Token.get_next_code, with exactly the fields passcode, tokencode and
time_left. -/
structure TokenInfoTuple where
  passcode : String
  tokencode : String
  time_left : Int
  deriving DecidableEq

/-- The contents a native call writes into one TOKENBASICINFO array slot,
as the wrapper reads them back: each c_char array field yields its bytes. -/
structure TokenBasicRec where
  serial_number : List Nat
  username : List Nat
  deviceID : List Nat
  descriptor : List Nat
  deriving DecidableEq

/-- The contents a native call writes into a TOKENERRORINFO struct: the
numeric error code (a c_int field) and the two string fields as bytes. -/
structure TokenErrRec where
  error : Int
  error_string : List Nat
  detailed_error_string : List Nat
  deriving DecidableEq

/-- The contents a native call writes into a CK_DATE struct: the year,
month and day c_ubyte arrays (4, 2 and 2 bytes). -/
structure CkDateRec where
  year : List Nat
  month : List Nat
  day : List Nat
  deriving DecidableEq

/-- The values a GetCurrentCode or GetNextCode native call produces: the
bytes written into the passcode and PRN buffers, the LONG written through
the time-left pointer, and the return value of the call. -/
structure CodeNativeFill where
  passcodeBuf : List Nat
  prnBuf : List Nat
  timeLeft : Int
  ret : Int
  deriving DecidableEq

/-- The values of the TokenError enum of src/pysdtoken/_sdauto.py, in
declaration order; aliases repeat their value (ERROR_INIT and
ERROR_INVALID_PNTR are both 1, the line ERROR_INVALID_SET=NUMBER = 7
builds two members of value 7, and so on). -/
def tokenErrorValues : List Int :=
  [-1, 1, 1, 2, 2, 2, 3, 3, 3, 4, 5, 6, 7, 7, 8, 9, 10, 11, 12, 13, 14,
   15, 16, 17, 18, 19, 20, 21, 22, 23, 24, 25, 26, 27, 28, 29, 30, 31, 32,
   33, 34, 35, 36, 37, 38, 39, 40, 41, 42, 43, 44, 45, 46, 47, 48, 216,
   217, 49]

/-! ## SDProcess wrapper methods (src/pysdtoken/pysdtoken.py)

Each embedding takes the values the opaque native library produces on that
call path and returns the wrapper result together with the ordered list of
native entry points invoked. -/

/-- Embeds SDProcess.get_token_error (lines 611-639).  The wrapper calls
GetTokenError with a pointer to a fresh TOKENERRORINFO struct.  A return
value above 0 with a non-zero error field makes it decode the two string
fields and look the code up in the TokenError enum for logging; a failed
decode raises UnicodeDecodeError and an unknown code raises ValueError
(from the enum lookup), both uncaught inside this method.  The ok result
carries the error record the method read, when one was reported. -/
def get_token_error (ret : Int) (rec : TokenErrRec) :
    Except PyErr (Option (Int × String × String)) × List NativeFn :=
  if 0 < ret then
    if rec.error ≠ 0 then
      match utf8Decode (cValue rec.error_string),
            utf8Decode (cValue rec.detailed_error_string) with
      | some s1, some s2 =>
        if rec.error ∈ tokenErrorValues then
          (.ok (some (rec.error, s1, s2)), [.getTokenError])
        else (.error .valueError, [.getTokenError])
      | _, _ => (.error .unicodeDecodeError, [.getTokenError])
    else (.ok none, [.getTokenError])
  else (.ok none, [.getTokenError])

/-- Outcome of SDProcess.open_service: the native call list and whether the
return value took the success branch.  On a non-positive return the method
only logs an error; it does not call get_token_error. -/
structure OpenOutcome where
  success : Bool
  calls : List NativeFn
  deriving DecidableEq

/-- Embeds SDProcess.open_service (lines 246-270): one OpenTokenService
call; a return value above 0 is success, otherwise only an error is
logged. -/
def open_service (ret : Int) : OpenOutcome :=
  ⟨decide (0 < ret), [.openTokenService]⟩

/-- Outcome of SDProcess.close_service: the handle attribute after the
call (None on success), the success branch flag and the native calls. -/
structure CloseOutcome where
  handleAfter : Option Int
  success : Bool
  calls : List NativeFn
  deriving DecidableEq

/-- Embeds SDProcess.close_service (lines 272-300): one CloseTokenService
call; a return above 0 clears the stored handle, otherwise the method
follows up with get_token_error.  Both the native call and the follow-up
sit inside the try block, so an exception from get_token_error is caught
and only logged. -/
def close_service (ret : Int) (handle : Int) (errRet : Int) (errRec : TokenErrRec) :
    CloseOutcome :=
  if 0 < ret then ⟨none, true, [.closeTokenService]⟩
  else ⟨some handle, false, NativeFn.closeTokenService :: (get_token_error errRet errRec).2⟩

/-- Embeds SDProcess.enum_tokens (lines 302-344): one EnumToken call that
fills lTokens, lDefaultToken and dwBuffersize (its return value is never
inspected); when the filled token count is not positive the method calls
get_token_error, whose exceptions propagate (the call sits outside the
try block).  The ok result carries the filled values. -/
def enum_tokens (fillTokens fillDefault fillBuf : Int)
    (errRet : Int) (errRec : TokenErrRec) :
    Except PyErr (Int × Int × Int) × List NativeFn :=
  if fillTokens ≤ 0 then
    match get_token_error errRet errRec with
    | (.ok _, ec) => (.ok (fillTokens, fillDefault, fillBuf), .enumToken :: ec)
    | (.error e, ec) => (.error e, .enumToken :: ec)
  else (.ok (fillTokens, fillDefault, fillBuf), [.enumToken])

/-- Builds the Token list of SDProcess.get_tokens (lines 405-433) from the
TOKENBASICINFO array slots: for the slot at index x the username and the
serial are UTF-8 decoded (a failed decode raises UnicodeDecodeError, which
propagates), deviceID and descriptor are kept as the raw bytes ctypes
returned, is_default is set exactly when lDefaultToken equals x, and
Token.__init__ fills the remaining defaults (the pin style falls back to
the first valid style because the data dict carries none). -/
def buildTokens (cfg : SDConfig) (lDefaultToken : Int) :
    Nat → List TokenBasicRec → Except PyErr (List Token)
  | _, [] => .ok []
  | x, rec :: rest =>
    match utf8Decode (cValue rec.username), utf8Decode (cValue rec.serial_number) with
    | some uname, some serial =>
      let tok : Token :=
        { serial_number := serial
          process := some cfg
          username := some uname
          deviceID := some (cValue rec.deviceID)
          descriptor := some (cValue rec.descriptor)
          is_default := decide (lDefaultToken = (x : Int))
          pin_style := valid_pin_styles[0]! }
      match buildTokens cfg lDefaultToken (x + 1) rest with
      | .ok ts => .ok (tok :: ts)
      | .error e => .error e
    | _, _ => .error .unicodeDecodeError

/-- Embeds SDProcess.get_tokens (lines 346-433).  A zero lTokens count
returns the empty list without any native call; a negative count raises
ValueError from the negative-length ctypes array construction (which sits
before the try block).  Otherwise the method issues the second EnumToken
call: a return above 0 is success, a non-positive return triggers a
get_token_error follow-up inside the try block; when that follow-up
raises, the except block runs get_token_error again, whose exception then
propagates.  The recs argument is the array contents the native call
filled; lDefaultToken is the value of self.lDefaultToken after the call,
since it is passed by reference. -/
def get_tokens (cfg : SDConfig) (lTokens lDefaultToken ret2 : Int)
    (recs : List TokenBasicRec) (errRet : Int) (errRec : TokenErrRec) :
    Except PyErr (List Token) × List NativeFn :=
  if lTokens = 0 then (.ok [], [])
  else if lTokens < 0 then (.error .valueError, [])
  else if 0 < ret2 then (buildTokens cfg lDefaultToken 0 recs, [.enumToken])
  else
    match get_token_error errRet errRec with
    | (.ok _, ec) => (buildTokens cfg lDefaultToken 0 recs, NativeFn.enumToken :: ec)
    | (.error _, ec) =>
      match get_token_error errRet errRec with
      | (.ok _, ec2) => (.ok [], NativeFn.enumToken :: (ec ++ ec2))
      | (.error e, ec2) => (.error e, NativeFn.enumToken :: (ec ++ ec2))

/-- The passcode buffer length SDProcess.get_token_current_code allocates
(lines 461-467): the if and else branches are identical, so every pin
style gets pin_length + tokencode_length, although the comments right
above say the passcode equals the tokencode length for PINless and
PINPad-style tokens. -/
def passcodeLengthCurrent (pin_style : String) (pin_length tokencode_length : Int) : Int :=
  if pin_style = "Fob-style" then pin_length + tokencode_length
  else pin_length + tokencode_length

/-- The passcode buffer length SDProcess.get_token_next_code allocates
(lines 533-541): pin_length + tokencode_length for Fob-style, otherwise
just tokencode_length. -/
def passcodeLengthNext (pin_style : String) (pin_length tokencode_length : Int) : Int :=
  if pin_style = "Fob-style" then pin_length + tokencode_length
  else tokencode_length

/-- Outcome of SDProcess.get_token_current_code: the sizes of the two
string buffers it allocated, the success branch flag of the GetCurrentCode
return value, the decoded result triple (none when a decode raises
UnicodeDecodeError on the return line), and the native calls. -/
structure CodeOutcome where
  passcodeBufLen : Int
  prnBufLen : Int
  success : Bool
  result : Option (String × String × Int)
  calls : List NativeFn
  deriving DecidableEq

/-- Embeds SDProcess.get_token_current_code (lines 446-510).  It allocates
a passcode buffer of passcodeLengthCurrent bytes (computed from
self.pin_style, not from the pin_style argument) and a PRN buffer of
tokencode_length bytes, calls GetCurrentCode, logs an error on a
non-positive return without calling get_token_error, and returns the
UTF-8 decoded buffer values together with the filled time-left LONG. -/
def get_token_current_code (cfg : SDConfig) (serial pin_style pin : String)
    (env : CodeNativeFill) : CodeOutcome :=
  let passcode_length := passcodeLengthCurrent cfg.pin_style cfg.pin_length cfg.tokencode_length
  let chPASSCODE := env.passcodeBuf.take passcode_length.toNat
  let chPRN := env.prnBuf.take cfg.tokencode_length.toNat
  { passcodeBufLen := passcode_length
    prnBufLen := cfg.tokencode_length
    success := decide (0 < env.ret)
    result :=
      match utf8Decode (cValue chPASSCODE), utf8Decode (cValue chPRN) with
      | some p, some c => some (p, c, env.timeLeft)
      | _, _ => none
    calls := [.getCurrentCode] }

/-- Outcome of SDProcess.get_token_next_code: the passcode buffer size,
the decoded result triple and the native calls.  The method never
inspects the GetNextCode return value. -/
structure NextOutcome where
  passcodeBufLen : Int
  prnBufLen : Int
  result : Option (String × String × Int)
  calls : List NativeFn
  deriving DecidableEq

/-- Embeds SDProcess.get_token_next_code (lines 519-579): the passcode
buffer is pin_length + tokencode_length bytes for Fob-style and
tokencode_length otherwise; one GetNextCode call whose return value is
ignored; the buffer values are UTF-8 decoded on the return line. -/
def get_token_next_code (cfg : SDConfig) (serial pin : String)
    (env : CodeNativeFill) : NextOutcome :=
  let passcode_length := passcodeLengthNext cfg.pin_style cfg.pin_length cfg.tokencode_length
  let chPASSCODE := env.passcodeBuf.take passcode_length.toNat
  let chPRN := env.prnBuf.take cfg.tokencode_length.toNat
  { passcodeBufLen := passcode_length
    prnBufLen := cfg.tokencode_length
    result :=
      match utf8Decode (cValue chPASSCODE), utf8Decode (cValue chPRN) with
      | some p, some c => some (p, c, env.timeLeft)
      | _, _ => none
    calls := [.getNextCode] }

/-- Python int() applied to the UTF-8 decoding of a byte field: none when
the bytes are not valid UTF-8 or the text is not an integer literal. -/
def pyIntOfBytes (bs : List Nat) : Option Int :=
  (utf8Decode bs).bind String.toInt?

/-- Gregorian leap year test, as datetime.date uses. -/
def isLeapYear (y : Int) : Bool :=
  (y % 4 == 0 && y % 100 != 0) || y % 400 == 0

/-- Days in a month of a given year, as datetime.date validates. -/
def daysInMonth (y m : Int) : Int :=
  if m = 2 then (if isLeapYear y then 29 else 28)
  else if m = 4 ∨ m = 6 ∨ m = 9 ∨ m = 11 then 30
  else 31

/-- Whether datetime.date accepts the triple (year, month, day). -/
def dateValid (y m d : Int) : Bool :=
  decide (1 ≤ y ∧ y ≤ 9999 ∧ 1 ≤ m ∧ m ≤ 12 ∧ 1 ≤ d ∧ d ≤ daysInMonth y m)

/-- The date value SDProcess.get_token_expiration_date builds from a
CK_DATE struct: each c_ubyte array is converted with bytes() (full
contents, no NUL truncation), UTF-8 decoded, parsed with int(), and the
triple is passed to datetime.date; none when any step raises. -/
def pyDateOf (d : CkDateRec) : Option (Int × Int × Int) :=
  match pyIntOfBytes d.year, pyIntOfBytes d.month, pyIntOfBytes d.day with
  | some y, some m, some dd => if dateValid y m dd then some (y, m, dd) else none
  | _, _, _ => none

/-- Embeds SDProcess.get_token_expiration_date (lines 581-609): one
GetTokenExpirationDate call; a return above 0 parses the CK_DATE struct
into a date (a parse failure raises inside the try block, and the except
block calls get_token_error and returns None); a non-positive return calls
get_token_error inside the try block, and if that call raises, the except
block calls get_token_error once more, whose exception propagates. -/
def get_token_expiration_date (serial : String) (ret : Int) (d : CkDateRec)
    (errRet : Int) (errRec : TokenErrRec) :
    Except PyErr (Option (Int × Int × Int)) × List NativeFn :=
  if 0 < ret then
    match pyDateOf d with
    | some ymd => (.ok (some ymd), [.getTokenExpirationDate])
    | none =>
      match get_token_error errRet errRec with
      | (.ok _, ec) => (.ok none, NativeFn.getTokenExpirationDate :: ec)
      | (.error e, ec) => (.error e, NativeFn.getTokenExpirationDate :: ec)
  else
    match get_token_error errRet errRec with
    | (.ok _, ec) => (.ok none, NativeFn.getTokenExpirationDate :: ec)
    | (.error _, ec) =>
      match get_token_error errRet errRec with
      | (.ok _, ec2) => (.ok none, NativeFn.getTokenExpirationDate :: (ec ++ ec2))
      | (.error e, ec2) => (.error e, NativeFn.getTokenExpirationDate :: (ec ++ ec2))

/-! ## SDProcess initialization (lines 135-244) -/

/-- The pin style SDProcess.__init__ stores (lines 158-163): the argument
when it is a valid style, otherwise the first valid style. -/
def resolvedPinStyle (pin_style : String) : String :=
  if pin_style ∈ valid_pin_styles then pin_style else valid_pin_styles[0]!

/-- Whether SDProcess.__init__ accepts a pin length (line 210):
membership in range(6, 9) or equal to 0. -/
def pinLengthValid (pin_length : Int) : Bool :=
  decide ((6 ≤ pin_length ∧ pin_length < 9) ∨ pin_length = 0)

/-- Whether SDProcess.__init__ accepts a tokencode length (line 218):
membership in range(6, 9). -/
def tokencodeLengthValid (tokencode_length : Int) : Bool :=
  decide (6 ≤ tokencode_length ∧ tokencode_length < 9)

/-- The initialization steps of SDProcess.__init__ that the spec names,
in the order the constructor body reaches them. -/
inductive InitEvent
  | loadLibrary
  | openService
  | enumTokens
  | getTokens
  deriving DecidableEq

/-- How SDProcess.__init__ ends: a fully built instance, an early return
with a half-built instance (the library failed to load, the constructor
logged and returned), or a propagating exception. -/
inductive InitOutcome
  | ok (cfg : SDConfig) (tokens : List Token)
  | incomplete
  | raised (e : PyErr)
  deriving DecidableEq

/-- Everything the environment decides during SDProcess.__init__: the
platform branch taken, whether LoadLibrary succeeds, and the values every
native call made during initialization returns or fills. -/
structure InitEnv where
  windows : Bool
  loadOk : Bool
  openRet : Int
  enumTokensFill : Int
  enumDefaultFill : Int
  enumBufFill : Int
  enumDefaultFill2 : Int
  enumRet2 : Int
  recs : List TokenBasicRec
  errRet : Int
  errRec : TokenErrRec
  deriving DecidableEq

/-- Embeds SDProcess.__init__ (lines 135-244).  In order: the pin style
sanity check (an invalid style falls back, nothing raises); the library
branch; the pin and tokencode length validations (ValueError on a bad
value); then open_service, enum_tokens and get_tokens.

Library branch details from the source: when a dll name is passed in the
constructor never loads the library, so the first attribute access on the
missing self.process (inside open_service, before any native call) raises
AttributeError after the validations; on Windows without a dll name a
LoadLibrary failure is caught and the constructor returns early; off
Windows without a dll name the branch reads self.dll_name before ever
assigning it, and the resulting AttributeError is caught inside the branch
and makes the constructor return early without calling LoadLibrary. -/
def sdInit (dllNameGiven : Bool) (pin_style : String)
    (pin_length tokencode_length : Int) (env : InitEnv) :
    InitOutcome × List InitEvent :=
  let ps := resolvedPinStyle pin_style
  if dllNameGiven then
    if ¬ pinLengthValid pin_length then (.raised .valueError, [])
    else if ¬ tokencodeLengthValid tokencode_length then (.raised .valueError, [])
    else (.raised .attributeError, [])
  else if env.windows then
    if ¬ env.loadOk then (.incomplete, [.loadLibrary])
    else if ¬ pinLengthValid pin_length then (.raised .valueError, [.loadLibrary])
    else if ¬ tokencodeLengthValid tokencode_length then
      (.raised .valueError, [.loadLibrary])
    else
      let cfg : SDConfig := ⟨ps, pin_length, tokencode_length⟩
      match enum_tokens env.enumTokensFill env.enumDefaultFill env.enumBufFill
              env.errRet env.errRec with
      | (.error e, _) => (.raised e, [.loadLibrary, .openService, .enumTokens])
      | (.ok (lT, _, _), _) =>
        match (get_tokens cfg lT env.enumDefaultFill2 env.enumRet2 env.recs
                 env.errRet env.errRec).1 with
        | .ok ts =>
          (.ok cfg ts, [.loadLibrary, .openService, .enumTokens, .getTokens])
        | .error e =>
          (.raised e, [.loadLibrary, .openService, .enumTokens, .getTokens])
  else (.incomplete, [])

/-! ## Token methods (lines 34-120) -/

/-- Embeds Token.set_pin_style (lines 116-120): an argument outside
valid_pin_styles raises ValueError before the assignment, so the token is
unchanged; a valid argument is stored as the new pin style. -/
def Token.set_pin_style (t : Token) (pinstyle : String) : Except PyErr Token :=
  if pinstyle ∈ valid_pin_styles then .ok { t with pin_style := pinstyle }
  else .error .valueError

/-- Packs the triple a code-retrieval wrapper returns into the TokenInfo
named tuple, or the UnicodeDecodeError its return line raised. -/
def codeResultToTuple (result : Option (String × String × Int))
    (calls : List NativeFn) : Except PyErr TokenInfoTuple × List NativeFn :=
  match result with
  | some (p, c, tl) => (.ok ⟨p, c, tl⟩, calls)
  | none => (.error .unicodeDecodeError, calls)

/-- Embeds Token.get_current_code (lines 82-96): without an attached
process it raises ReferenceError before any native call; otherwise it
delegates to SDProcess.get_token_current_code with the token serial, the
token pin style and the pin, and wraps the triple in the TokenInfo named
tuple. -/
def Token.get_current_code (t : Token) (pin : String) (env : CodeNativeFill) :
    Except PyErr TokenInfoTuple × List NativeFn :=
  match t.process with
  | none => (.error .referenceError, [])
  | some cfg =>
    let out := get_token_current_code cfg t.serial_number t.pin_style pin env
    codeResultToTuple out.result out.calls

/-- Embeds Token.get_next_code (lines 98-110): without an attached process
it raises ReferenceError before any native call; otherwise it delegates to
SDProcess.get_token_next_code with the token serial and the pin, and wraps
the triple in the TokenInfo named tuple. -/
def Token.get_next_code (t : Token) (pin : String) (env : CodeNativeFill) :
    Except PyErr TokenInfoTuple × List NativeFn :=
  match t.process with
  | none => (.error .referenceError, [])
  | some cfg =>
    let out := get_token_next_code cfg t.serial_number pin env
    codeResultToTuple out.result out.calls

/-- Embeds Token.get_expiration_date (lines 69-80): without an attached
process it raises ReferenceError before any native call; otherwise it
delegates to SDProcess.get_token_expiration_date with the token serial. -/
def Token.get_expiration_date (t : Token) (ret : Int) (d : CkDateRec)
    (errRet : Int) (errRec : TokenErrRec) :
    Except PyErr (Option (Int × Int × Int)) × List NativeFn :=
  match t.process with
  | none => (.error .referenceError, [])
  | some cfg => get_token_expiration_date t.serial_number ret d errRet errRec

/-! ## Helper lemmas -/

/-- get_token_error makes exactly one native call, GetTokenError, on every
path. -/
theorem get_token_error_calls (ret : Int) (rec : TokenErrRec) :
    (get_token_error ret rec).2 = [.getTokenError] := by
  unfold get_token_error
  split
  · split
    · split
      · split <;> rfl
      · rfl
    · rfl
  · rfl

/-- An SDProcess that finishes initialization stores the resolved pin
style. -/
theorem sdInit_ok_pin_style (dllNameGiven : Bool) (pin_style : String)
    (pl tl : Int) (env : InitEnv) (cfg : SDConfig) (ts : List Token) :
    (sdInit dllNameGiven pin_style pl tl env).1 = .ok cfg ts →
    cfg.pin_style = resolvedPinStyle pin_style := by
  intro h
  unfold sdInit at h
  dsimp only at h
  repeat' split at h
  all_goals simp_all
  all_goals (obtain ⟨h1, h2⟩ := h; subst h1; rfl)

/-- Index computation of buildTokens: slot x + i of the produced list has
its default flag set exactly by comparing lDefaultToken with the slot
index. -/
theorem buildTokens_default (cfg : SDConfig) (lD : Int) :
    ∀ (x : Nat) (recs : List TokenBasicRec) (ts : List Token),
      buildTokens cfg lD x recs = .ok ts →
      ∀ (i : Nat) (h : i < ts.length),
        (ts.get ⟨i, h⟩).is_default = decide (lD = ((x + i : Nat) : Int)) := by
  intro x recs
  induction recs generalizing x with
  | nil =>
    intro ts hts i hi
    unfold buildTokens at hts
    simp only [Except.ok.injEq] at hts
    subst hts
    simp at hi
  | cons rec rest ih =>
    intro ts hts i hi
    unfold buildTokens at hts
    cases hu : utf8Decode (cValue rec.username) with
    | none => rw [hu] at hts; simp at hts
    | some uname =>
      cases hs : utf8Decode (cValue rec.serial_number) with
      | none => rw [hu, hs] at hts; simp at hts
      | some serial =>
        rw [hu, hs] at hts
        cases hrest : buildTokens cfg lD (x + 1) rest with
        | error e => rw [hrest] at hts; simp at hts
        | ok ts2 =>
          rw [hrest] at hts
          simp only [Except.ok.injEq] at hts
          subst hts
          cases i with
          | zero => simp
          | succ j =>
            have hj : j < ts2.length := by
              simpa [Nat.succ_lt_succ_iff] using hi
            have := ih (x + 1) ts2 hrest j hj
            simp only [List.get_cons_succ]
            rw [this]
            congr 2
            omega

/-! ## Claims -/

/-- Claim C1 counterexample: the claim says every failed native call is followed
by a get_token_error call, but open_service with a zero return takes its
failure branch and never calls get_token_error, and the same holds for
get_token_current_code. -/
theorem c1_counterexample :
    (open_service 0).success = false ∧
    NativeFn.getTokenError ∉ (open_service 0).calls ∧
    (get_token_current_code ⟨"PINless", 8, 8⟩ "000123456789" "PINless" ""
      ⟨[], [], 0, 0⟩).success = false ∧
    NativeFn.getTokenError ∉
      (get_token_current_code ⟨"PINless", 8, 8⟩ "000123456789" "PINless" ""
        ⟨[], [], 0, 0⟩).calls := by
  refine ⟨by decide, by decide, by decide, by decide⟩

/-- Claim C1 amended: every native call return value above 0 is the success
branch and a non-positive one the failure branch; on failure,
close_service, the second EnumToken call of get_tokens, and
get_token_expiration_date follow up by calling get_token_error, which on
success reads a TOKENERRORINFO record holding one numeric code and two
decoded strings; but open_service and get_token_current_code only log
their failure without calling get_token_error, and enum_tokens triggers
get_token_error on a non-positive filled token count rather than on the
return value (which it never inspects). -/
theorem c1_amended :
    ∀ (ret handle fT fD fB lT lD r2 errRet : Int) (cfg : SDConfig)
      (serial pin_style pin : String) (env : CodeNativeFill)
      (recs : List TokenBasicRec) (d : CkDateRec) (rec : TokenErrRec),
    ((open_service ret).success = true ↔ 0 < ret) ∧
    (NativeFn.getTokenError ∉ (open_service ret).calls) ∧
    ((close_service ret handle errRet rec).success = true ↔ 0 < ret) ∧
    (NativeFn.getTokenError ∈ (close_service ret handle errRet rec).calls ↔ ret ≤ 0) ∧
    (NativeFn.getTokenError ∈ (enum_tokens fT fD fB errRet rec).2 ↔ fT ≤ 0) ∧
    ((get_token_current_code cfg serial pin_style pin env).success = true ↔ 0 < env.ret) ∧
    (NativeFn.getTokenError ∉ (get_token_current_code cfg serial pin_style pin env).calls) ∧
    (NativeFn.getTokenError ∈ (get_tokens cfg lT lD r2 recs errRet rec).2 ↔
      (0 < lT ∧ r2 ≤ 0)) ∧
    (NativeFn.getTokenError ∈ (get_token_expiration_date serial ret d errRet rec).2 ↔
      (ret ≤ 0 ∨ pyDateOf d = none)) ∧
    (0 < errRet → rec.error ≠ 0 →
      ∀ s1 s2, utf8Decode (cValue rec.error_string) = some s1 →
        utf8Decode (cValue rec.detailed_error_string) = some s2 →
        rec.error ∈ tokenErrorValues →
        (get_token_error errRet rec).1 = .ok (some (rec.error, s1, s2))) := by
  intro ret handle fT fD fB lT lD r2 errRet cfg serial pin_style pin env recs d rec
  refine ⟨?_, ?_, ?_, ?_, ?_, ?_, ?_, ?_, ?_, ?_⟩
  · simp [open_service]
  · simp [open_service]
  · unfold close_service
    split <;> simp_all
  · unfold close_service
    split <;> simp_all [get_token_error_calls] <;> try omega
  · unfold enum_tokens
    split
    · rename_i hle
      cases hge : get_token_error errRet rec with
      | mk res calls =>
        have hc : calls = [.getTokenError] := by
          have := get_token_error_calls errRet rec
          rw [hge] at this; exact this
        cases res <;> simp [hge, hc, hle]
    · rename_i hgt
      simp
      omega
  · simp [get_token_current_code]
  · simp [get_token_current_code]
  · unfold get_tokens
    split
    · rename_i h0; simp; omega
    · split
      · rename_i h0 hneg; simp; omega
      · split
        · rename_i h0 hneg hr2; simp; omega
        · rename_i h0 hneg hr2
          cases hge : get_token_error errRet rec with
          | mk res calls =>
            have hc : calls = [.getTokenError] := by
              have := get_token_error_calls errRet rec
              rw [hge] at this; exact this
            cases res <;> simp [hge, hc] <;> omega
  · unfold get_token_expiration_date
    split
    · rename_i hgt
      cases hd : pyDateOf d with
      | some ymd => simp; omega
      | none =>
        cases hge : get_token_error errRet rec with
        | mk res calls =>
          have hc : calls = [.getTokenError] := by
            have := get_token_error_calls errRet rec
            rw [hge] at this; exact this
          cases res <;> simp [hge, hc] <;> try omega
    · rename_i hle
      cases hge : get_token_error errRet rec with
      | mk res calls =>
        have hc : calls = [.getTokenError] := by
          have := get_token_error_calls errRet rec
          rw [hge] at this; exact this
        cases res <;> simp [hge, hc] <;> omega
  · intro hret herr s1 s2 hs1 hs2 hmem
    unfold get_token_error
    rw [if_pos hret, if_pos herr, hs1, hs2]
    simp [hmem]

/-- Claim C1 amended witness: at concrete inputs, a reported non-zero error
yields the record with its numeric code and two decoded strings. -/
theorem c1_amended_witness :
    (0 : Int) < 1 ∧ (5 : Int) ≠ 0 ∧ (5 : Int) ∈ tokenErrorValues ∧
    utf8Decode (cValue [101]) = some "e" ∧
    utf8Decode (cValue [68]) = some "D" ∧
    (get_token_error 1 ⟨5, [101], [68]⟩).1 = .ok (some (5, "e", "D")) :=
  ⟨by decide, by decide, by decide, by decide, by decide,
   (c1_amended 1 0 0 0 0 0 0 0 1 ⟨"PINless", 0, 6⟩ "s" "PINless" ""
      ⟨[], [], 0, 0⟩ [] ⟨[], [], []⟩
      ⟨5, [101], [68]⟩).2.2.2.2.2.2.2.2.2
    (by decide) (by decide) "e" "D" (by decide) (by decide) (by decide)⟩

/-- Claim C2: the claim says the passcode buffer of get_token_current_code has
length tokencode_length for non-Fob styles, matching both the comments in
that method and the parallel get_token_next_code; but the if and else
branches of get_token_current_code are identical, so the buffer is
pin_length + tokencode_length bytes for every style.  At pin_length 8 and
tokencode_length 8 with a PINless process the current-code buffer is 16
bytes where the claim (and the next-code method) give 8. -/
theorem c2_passcode_buffer_bug :
    passcodeLengthCurrent "PINless" 8 8 = 16 ∧
    passcodeLengthCurrent "PINPad-style" 8 8 = 16 ∧
    passcodeLengthCurrent "Fob-style" 8 8 = 16 ∧
    passcodeLengthNext "PINless" 8 8 = 8 ∧
    passcodeLengthNext "PINPad-style" 8 8 = 8 ∧
    passcodeLengthNext "Fob-style" 8 8 = 16 ∧
    (get_token_current_code ⟨"PINless", 8, 8⟩ "000123456789" "PINless" ""
      ⟨[], [], 0, 1⟩).passcodeBufLen = 16 ∧
    (get_token_next_code ⟨"PINless", 8, 8⟩ "000123456789" ""
      ⟨[], [], 0, 1⟩).passcodeBufLen = 8 := by
  refine ⟨by decide, by decide, by decide, by decide, by decide, by decide,
    by decide, by decide⟩

/-- Claim C3: the initialization trace of SDProcess.__init__ only ever performs
its steps in the fixed order load library, open service, enumerate
tokens, build the token list (every run produces a prefix of that
sequence), and a run on the default Windows path with a loadable library,
accepted lengths and a positive enumerated token count performs all four
steps in that order; code and expiration queries are separate methods
issued on the enumerated serials afterwards. -/
theorem c3_init_order :
    ∀ (dllNameGiven : Bool) (pin_style : String)
      (pin_length tokencode_length : Int) (env : InitEnv),
    ((sdInit dllNameGiven pin_style pin_length tokencode_length env).2 ∈
      ([[], [.loadLibrary], [.loadLibrary, .openService, .enumTokens],
        [.loadLibrary, .openService, .enumTokens, .getTokens]] :
        List (List InitEvent))) ∧
    (dllNameGiven = false → env.windows = true → env.loadOk = true →
      pinLengthValid pin_length = true →
      tokencodeLengthValid tokencode_length = true →
      0 < env.enumTokensFill →
      (sdInit dllNameGiven pin_style pin_length tokencode_length env).2 =
        [.loadLibrary, .openService, .enumTokens, .getTokens]) := by
  intro dllNameGiven pin_style pin_length tokencode_length env
  constructor
  · unfold sdInit
    dsimp only
    repeat' split
    all_goals simp
  · intro h1 h2 h3 h4 h5 h6
    subst h1
    have hfT : ¬ (env.enumTokensFill ≤ 0) := by omega
    unfold sdInit enum_tokens
    simp only [h2, h3, h4, h5, hfT, Bool.false_eq_true, if_false, if_true,
      not_true_eq_false, not_false_eq_true, ite_true, ite_false]
    cases hh : (get_tokens ⟨resolvedPinStyle pin_style, pin_length, tokencode_length⟩
        env.enumTokensFill env.enumDefaultFill2 env.enumRet2 env.recs
        env.errRet env.errRec).1 <;> simp [hh]

/-- Claim C3 witness: a concrete default-path run performs exactly the four
steps in order. -/
theorem c3_init_order_witness :
    pinLengthValid 8 = true ∧ tokencodeLengthValid 6 = true ∧
    (0 : Int) < 1 ∧
    (sdInit false "PINless" 8 6
        ⟨true, true, 1, 1, 0, 124, 0, 1, [⟨[49], [117], [], []⟩], 1, ⟨0, [], []⟩⟩).2 =
      [.loadLibrary, .openService, .enumTokens, .getTokens] :=
  ⟨by decide, by decide, by decide,
   (c3_init_order false "PINless" 8 6
      ⟨true, true, 1, 1, 0, 124, 0, 1, [⟨[49], [117], [], []⟩], 1, ⟨0, [], []⟩⟩).2
     rfl rfl rfl (by decide) (by decide) (by decide)⟩

/-- Claim C4 counterexample: the claim says every copy of the record
definitions shares the packed layout with a 48-byte descriptor, but the
legacy module declares its TOKENBASICINFO descriptor as 64 chars, and its
CK_DATE never sets the ctypes packing or field attributes at all (it
assigns plain pack and fields names), so that copy has no packed layout. -/
theorem c4_counterexample :
    ((legacy_struct_tagTOKENBASICINFO.fieldList.filter
        (fun f => f.fname = "descriptor")).map FieldSpec.ftype =
      [.charArray 64]) ∧
    (CType.charArray 64 ≠ CType.charArray 48) ∧
    legacy_struct_CK_DATE.packed = false ∧
    legacy_struct_CK_DATE.fieldList = [] ∧
    legacy_struct_tagTOKENBASICINFO ≠ sdauto_struct_tagTOKENBASICINFO := by
  refine ⟨by decide, by decide, by decide, by decide, by decide⟩

/-- Claim C4 amended: the package module _sdauto.py defines the three records
byte-packed with the claimed field sizes (DWORD plus 24, 24, 24 and 48
char bytes for basic info; int plus 24 and 64 char bytes for error info;
4, 2 and 2 unsigned bytes for the date); the error-info copy of the legacy module: that
copy has the same packed byte layout, but the basic-info copy declares a
c_long dwSize and a 64-byte descriptor (140 bytes total instead of 124),
and its date copy misspells the packing and field attributes, so it is
unpacked and declares no ctypes fields. -/
theorem c4_amended :
    sdauto_struct_tagTOKENBASICINFO =
      ⟨true, [⟨"dwSize", .dword⟩, ⟨"serial_number", .charArray 24⟩,
              ⟨"username", .charArray 24⟩, ⟨"deviceID", .charArray 24⟩,
              ⟨"descriptor", .charArray 48⟩]⟩ ∧
    sdauto_struct_tagTOKENERRORINFO =
      ⟨true, [⟨"error", .cint⟩, ⟨"error_string", .charArray 24⟩,
              ⟨"detailed_error_string", .charArray 64⟩]⟩ ∧
    sdauto_struct_CK_DATE =
      ⟨true, [⟨"year", .cubyteArray 4⟩, ⟨"month", .cubyteArray 2⟩,
              ⟨"day", .cubyteArray 2⟩]⟩ ∧
    structSize sdauto_struct_tagTOKENBASICINFO = 124 ∧
    structSize sdauto_struct_tagTOKENERRORINFO = 92 ∧
    structSize sdauto_struct_CK_DATE = 8 ∧
    legacy_struct_tagTOKENERRORINFO.packed = true ∧
    (legacy_struct_tagTOKENERRORINFO.fieldList.map (fun f => (f.fname, f.ftype.byteSize)) =
      sdauto_struct_tagTOKENERRORINFO.fieldList.map (fun f => (f.fname, f.ftype.byteSize))) ∧
    legacy_struct_tagTOKENBASICINFO.packed = true ∧
    structSize legacy_struct_tagTOKENBASICINFO = 140 ∧
    legacy_struct_CK_DATE = ⟨false, []⟩ := by
  refine ⟨by decide, by decide, by decide, by decide, by decide, by decide,
    by decide, by decide, by decide, by decide, by decide⟩

/-- Claim C5: each wrapper operation resolves exactly its corresponding
vendor-exported entry point by name: OpenTokenService, CloseTokenService,
EnumToken, GetCurrentCode, GetNextCode, GetTokenExpirationDate and
GetTokenError in the package module (the head of each call trace is the
own export of the operation; failure paths append only the GetTokenError
follow-up), and the legacy module resolves the same names except that its
expiration method calls the GetTokenExpiration export. -/
theorem c5_export_names :
    ∀ (ret handle fT fD fB errRet : Int) (cfg : SDConfig)
      (serial pin_style pin : String) (env : CodeNativeFill)
      (d : CkDateRec) (rec : TokenErrRec),
    ((open_service ret).calls.map NativeFn.exportName = ["OpenTokenService"]) ∧
    (((close_service ret handle errRet rec).calls.map NativeFn.exportName).head? =
      some "CloseTokenService") ∧
    (((enum_tokens fT fD fB errRet rec).2.map NativeFn.exportName).head? =
      some "EnumToken") ∧
    ((get_token_current_code cfg serial pin_style pin env).calls.map NativeFn.exportName =
      ["GetCurrentCode"]) ∧
    ((get_token_next_code cfg serial pin env).calls.map NativeFn.exportName =
      ["GetNextCode"]) ∧
    (((get_token_expiration_date serial ret d errRet rec).2.map NativeFn.exportName).head? =
      some "GetTokenExpirationDate") ∧
    ((get_token_error ret rec).2.map NativeFn.exportName = ["GetTokenError"]) ∧
    legacyNativeExport "open_service" = some "OpenTokenService" ∧
    legacyNativeExport "close_service" = some "CloseTokenService" ∧
    legacyNativeExport "count_tokens" = some "EnumToken" ∧
    legacyNativeExport "get_tokens" = some "EnumToken" ∧
    legacyNativeExport "get_token_current_code" = some "GetCurrentCode" ∧
    legacyNativeExport "get_token_expiration_date" = some "GetTokenExpiration" ∧
    legacyNativeExport "get_token_error" = some "GetTokenError" := by
  intro ret handle fT fD fB errRet cfg serial pin_style pin env d rec
  refine ⟨by simp [open_service, NativeFn.exportName], ?_, ?_,
    by simp [get_token_current_code, NativeFn.exportName],
    by simp [get_token_next_code, NativeFn.exportName],
    ?_, by rw [get_token_error_calls]; rfl,
    rfl, rfl, rfl, rfl, rfl, rfl, rfl⟩
  · unfold close_service
    split <;> simp [NativeFn.exportName]
  · unfold enum_tokens
    split
    · cases hge : get_token_error errRet rec with
      | mk res calls => cases res <;> simp [NativeFn.exportName]
    · simp [NativeFn.exportName]
  · unfold get_token_expiration_date
    split
    · cases hd : pyDateOf d with
      | some ymd => simp [NativeFn.exportName]
      | none =>
        cases hge : get_token_error errRet rec with
        | mk res calls => cases res <;> simp [NativeFn.exportName]
    · cases hge : get_token_error errRet rec with
      | mk res calls =>
        cases res with
        | ok v => simp [NativeFn.exportName]
        | error e =>
          cases hge2 : get_token_error errRet rec with
          | mk res2 calls2 => cases res2 <;> simp [NativeFn.exportName]

/-- Claim C6: the valid pin styles are exactly PINless, PINPad-style and
Fob-style; Token.set_pin_style raises ValueError before any assignment
for a string outside the set (the token keeps its pin style) and stores
any string inside it; SDProcess.__init__ given a style outside the set
does not raise but behaves exactly as if PINless had been passed, so a
completed initialization stores PINless. -/
theorem c6_pin_styles :
    ∀ (t : Token) (s : String) (dllNameGiven : Bool) (pl tl : Int) (env : InitEnv),
    valid_pin_styles = ["PINless", "PINPad-style", "Fob-style"] ∧
    (s ∈ valid_pin_styles → t.set_pin_style s = .ok { t with pin_style := s }) ∧
    (s ∉ valid_pin_styles → t.set_pin_style s = .error .valueError) ∧
    (s ∉ valid_pin_styles →
      sdInit dllNameGiven s pl tl env = sdInit dllNameGiven "PINless" pl tl env) ∧
    (s ∉ valid_pin_styles → ∀ cfg ts,
      (sdInit dllNameGiven s pl tl env).1 = .ok cfg ts →
      cfg.pin_style = "PINless") := by
  intro t s dllNameGiven pl tl env
  have hres : ∀ s2, s2 ∉ valid_pin_styles → resolvedPinStyle s2 = "PINless" := by
    intro s2 h2
    unfold resolvedPinStyle
    rw [if_neg h2]
    rfl
  refine ⟨rfl, ?_, ?_, ?_, ?_⟩
  · intro h
    unfold Token.set_pin_style
    rw [if_pos h]
  · intro h
    unfold Token.set_pin_style
    rw [if_neg h]
  · intro h
    have : resolvedPinStyle s = resolvedPinStyle "PINless" := by
      rw [hres s h]
      rfl
    simp only [sdInit, this]
  · intro h cfg ts hok
    rw [sdInit_ok_pin_style dllNameGiven s pl tl env cfg ts hok, hres s h]

/-- Claim C6 witness: a concrete invalid style is rejected by set_pin_style, a
concrete valid style is stored, and a concrete initialization with an
invalid style behaves exactly as with PINless. -/
theorem c6_pin_styles_witness :
    ("bogus" ∉ valid_pin_styles) ∧ ("Fob-style" ∈ valid_pin_styles) ∧
    (Token.set_pin_style ⟨"123", none, none, none, none, false, "PINless"⟩ "bogus" =
      .error .valueError) ∧
    (Token.set_pin_style ⟨"123", none, none, none, none, false, "PINless"⟩ "Fob-style" =
      .ok ⟨"123", none, none, none, none, false, "Fob-style"⟩) ∧
    (sdInit false "bogus" 8 8 ⟨true, true, 1, 1, 0, 124, 0, 1, [], 1, ⟨0, [], []⟩⟩ =
      sdInit false "PINless" 8 8 ⟨true, true, 1, 1, 0, 124, 0, 1, [], 1, ⟨0, [], []⟩⟩) :=
  ⟨by decide, by decide,
   (c6_pin_styles ⟨"123", none, none, none, none, false, "PINless"⟩ "bogus"
      false 8 8 ⟨true, true, 1, 1, 0, 124, 0, 1, [], 1, ⟨0, [], []⟩⟩).2.2.1
     (by decide),
   (c6_pin_styles ⟨"123", none, none, none, none, false, "PINless"⟩ "Fob-style"
      false 8 8 ⟨true, true, 1, 1, 0, 124, 0, 1, [], 1, ⟨0, [], []⟩⟩).2.1
     (by decide),
   (c6_pin_styles ⟨"123", none, none, none, none, false, "PINless"⟩ "bogus"
      false 8 8 ⟨true, true, 1, 1, 0, 124, 0, 1, [], 1, ⟨0, [], []⟩⟩).2.2.2.1
     (by decide)⟩

/-- Claim C7: for a token with an attached process, Token.get_current_code
returns the TokenInfo named tuple with exactly the fields passcode,
tokencode and time_left, where passcode and tokencode are the UTF-8
decoded values of the byte buffers the native call filled (NUL-truncated,
within the allocated buffer sizes) and time_left is the value of the
filled LONG. -/
theorem c7_current_code_fields :
    ∀ (t : Token) (cfg : SDConfig) (pin : String) (env : CodeNativeFill)
      (p c : String),
    t.process = some cfg →
    utf8Decode (cValue (env.passcodeBuf.take
      (passcodeLengthCurrent cfg.pin_style cfg.pin_length
        cfg.tokencode_length).toNat)) = some p →
    utf8Decode (cValue (env.prnBuf.take cfg.tokencode_length.toNat)) = some c →
    t.get_current_code pin env =
      (.ok { passcode := p, tokencode := c, time_left := env.timeLeft },
       [.getCurrentCode]) := by
  intro t cfg pin env p c hproc hp hc
  unfold Token.get_current_code
  rw [hproc]
  unfold get_token_current_code codeResultToTuple
  dsimp only
  rw [hp, hc]

/-- Claim C7 witness: a concrete token and native fill produce the tuple with
the decoded passcode, the decoded tokencode and the filled time left. -/
theorem c7_current_code_fields_witness :
    (Token.process ⟨"123", some ⟨"PINless", 0, 6⟩, none, none, none, false, "PINless"⟩ =
      some ⟨"PINless", 0, 6⟩) ∧
    Token.get_current_code
        ⟨"123", some ⟨"PINless", 0, 6⟩, none, none, none, false, "PINless"⟩ ""
        ⟨[53, 53, 53, 53, 53, 53], [54, 54, 54, 54, 54, 54], 17, 1⟩ =
      (.ok { passcode := "555555", tokencode := "666666", time_left := 17 },
       [.getCurrentCode]) :=
  ⟨rfl,
   c7_current_code_fields
     ⟨"123", some ⟨"PINless", 0, 6⟩, none, none, none, false, "PINless"⟩
     ⟨"PINless", 0, 6⟩ ""
     ⟨[53, 53, 53, 53, 53, 53], [54, 54, 54, 54, 54, 54], 17, 1⟩
     "555555" "666666" rfl (by decide) (by decide)⟩

/-- Claim C8: each of the three query methods of Token raises ReferenceError
without any native call when no process is attached (the process
attribute is None or missing), and with an attached process each
delegates to the corresponding SDProcess method, passing the token serial
number. -/
theorem c8_process_guard :
    ∀ (t : Token) (pin : String) (envC envN : CodeNativeFill) (ret : Int)
      (d : CkDateRec) (errRet : Int) (errRec : TokenErrRec),
    (t.process = none →
      t.get_current_code pin envC = (.error .referenceError, []) ∧
      t.get_next_code pin envN = (.error .referenceError, []) ∧
      t.get_expiration_date ret d errRet errRec = (.error .referenceError, [])) ∧
    (∀ cfg, t.process = some cfg →
      (t.get_current_code pin envC =
        codeResultToTuple
          (get_token_current_code cfg t.serial_number t.pin_style pin envC).result
          (get_token_current_code cfg t.serial_number t.pin_style pin envC).calls) ∧
      (t.get_next_code pin envN =
        codeResultToTuple
          (get_token_next_code cfg t.serial_number pin envN).result
          (get_token_next_code cfg t.serial_number pin envN).calls) ∧
      t.get_expiration_date ret d errRet errRec =
        get_token_expiration_date t.serial_number ret d errRet errRec) := by
  intro t pin envC envN ret d errRet errRec
  constructor
  · intro hnone
    unfold Token.get_current_code Token.get_next_code Token.get_expiration_date
    rw [hnone]
    exact ⟨rfl, rfl, rfl⟩
  · intro cfg hsome
    unfold Token.get_current_code Token.get_next_code Token.get_expiration_date
    rw [hsome]
    exact ⟨rfl, rfl, rfl⟩

/-- Claim C8 witness: a concrete token without a process raises ReferenceError
from all three methods with no native call, and one with a process
delegates. -/
theorem c8_process_guard_witness :
    (Token.process ⟨"123", none, none, none, none, false, "PINless"⟩ = none) ∧
    (Token.get_current_code ⟨"123", none, none, none, none, false, "PINless"⟩ ""
        ⟨[], [], 0, 1⟩ = (.error .referenceError, [])) ∧
    (Token.get_next_code ⟨"123", none, none, none, none, false, "PINless"⟩ ""
        ⟨[], [], 0, 1⟩ = (.error .referenceError, [])) ∧
    (Token.get_expiration_date ⟨"123", none, none, none, none, false, "PINless"⟩
        1 ⟨[], [], []⟩ 1 ⟨0, [], []⟩ = (.error .referenceError, [])) ∧
    (Token.get_expiration_date ⟨"123", some ⟨"PINless", 0, 6⟩, none, none, none,
        false, "PINless"⟩ 1 ⟨[50, 48, 50, 53], [48, 50], [48, 51]⟩ 1 ⟨0, [], []⟩ =
      get_token_expiration_date "123" 1 ⟨[50, 48, 50, 53], [48, 50], [48, 51]⟩
        1 ⟨0, [], []⟩) :=
  ⟨rfl,
   ((c8_process_guard ⟨"123", none, none, none, none, false, "PINless"⟩ ""
      ⟨[], [], 0, 1⟩ ⟨[], [], 0, 1⟩ 1 ⟨[], [], []⟩ 1 ⟨0, [], []⟩).1 rfl).1,
   ((c8_process_guard ⟨"123", none, none, none, none, false, "PINless"⟩ ""
      ⟨[], [], 0, 1⟩ ⟨[], [], 0, 1⟩ 1 ⟨[], [], []⟩ 1 ⟨0, [], []⟩).1 rfl).2.1,
   ((c8_process_guard ⟨"123", none, none, none, none, false, "PINless"⟩ ""
      ⟨[], [], 0, 1⟩ ⟨[], [], 0, 1⟩ 1 ⟨[], [], []⟩ 1 ⟨0, [], []⟩).1 rfl).2.2,
   ((c8_process_guard ⟨"123", some ⟨"PINless", 0, 6⟩, none, none, none, false,
      "PINless"⟩ "" ⟨[], [], 0, 1⟩ ⟨[], [], 0, 1⟩ 1
      ⟨[50, 48, 50, 53], [48, 50], [48, 51]⟩ 1 ⟨0, [], []⟩).2
      ⟨"PINless", 0, 6⟩ rfl).2.2⟩

/-- Claim C9 counterexample: the claim says ValueError is raised if and only if
the lengths are invalid, but with valid lengths 8 and 8 and a loadable
library, a run where EnumToken reports no tokens and the GetTokenError
follow-up returns an error code outside the TokenError enum raises
ValueError from the enum lookup inside get_token_error. -/
theorem c9_counterexample :
    pinLengthValid 8 = true ∧ tokencodeLengthValid 8 = true ∧
    (sdInit false "PINless" 8 8
        ⟨true, true, 1, 0, 0, 0, 0, 1, [], 1, ⟨999, [120], [121]⟩⟩).1 =
      .raised .valueError := by
  refine ⟨by decide, by decide, by decide⟩

/-- Claim C9 amended: assuming the library loads on the default Windows path,
SDProcess.__init__ raises ValueError at the validation stage (before any
native call) exactly when pin_length is outside 0, 6, 7, 8 or
tokencode_length is outside 6, 7, 8; for accepted values a completed
initialization stores both lengths unchanged.  With accepted values a
ValueError can still escape later error handling (a GetTokenError code
outside the TokenError enum, or a negative enumerated token count),
which is why the raised-at-validation form replaces the plain iff of the
claim. -/
theorem c9_amended :
    ∀ (pin_style : String) (pl tl : Int) (env : InitEnv),
    env.windows = true → env.loadOk = true →
    ((((sdInit false pin_style pl tl env).1 = .raised .valueError) ∧
        (sdInit false pin_style pl tl env).2 = [.loadLibrary]) ↔
      ¬(pinLengthValid pl = true ∧ tokencodeLengthValid tl = true)) ∧
    (∀ cfg ts, (sdInit false pin_style pl tl env).1 = .ok cfg ts →
      cfg.pin_length = pl ∧ cfg.tokencode_length = tl) := by
  intro pin_style pl tl env h2 h3
  constructor
  · constructor
    · rintro ⟨hra, htr⟩ ⟨h4, h5⟩
      unfold sdInit enum_tokens at htr
      simp only [h2, h3, h4, h5, Bool.false_eq_true, if_false, if_true,
        not_true_eq_false, not_false_eq_true, ite_true, ite_false] at htr
      repeat' split at htr
      all_goals simp_all
    · intro hcontra
      by_cases h4 : pinLengthValid pl = true
      · have h5 : ¬ tokencodeLengthValid tl = true := fun h5 => hcontra ⟨h4, h5⟩
        unfold sdInit
        simp only [h2, h3, h4, h5, Bool.false_eq_true, if_false, if_true,
          not_true_eq_false, not_false_eq_true, ite_true, ite_false]
        constructor <;> trivial
      · unfold sdInit
        simp only [h2, h3, h4, Bool.false_eq_true, if_false, if_true,
          not_true_eq_false, not_false_eq_true, ite_true, ite_false]
        constructor <;> trivial
  · intro cfg ts hok
    unfold sdInit at hok
    dsimp only at hok
    repeat' split at hok
    all_goals simp_all
    obtain ⟨hcfg, -⟩ := hok
    rw [← hcfg]
    exact ⟨rfl, rfl⟩

/-- Claim C9 amended witness: a concrete invalid pin length 5 raises ValueError
at validation, and a concrete accepted run stores 8 and 6 unchanged. -/
theorem c9_amended_witness :
    ¬(pinLengthValid 5 = true ∧ tokencodeLengthValid 8 = true) ∧
    ((sdInit false "PINless" 5 8
        ⟨true, true, 1, 1, 0, 124, 0, 1, [], 1, ⟨0, [], []⟩⟩).1 =
      .raised .valueError ∧
     (sdInit false "PINless" 5 8
        ⟨true, true, 1, 1, 0, 124, 0, 1, [], 1, ⟨0, [], []⟩⟩).2 =
      [.loadLibrary]) ∧
    ((sdInit false "PINless" 8 6
        ⟨true, true, 1, 1, 0, 124, 0, 1, [], 1, ⟨0, [], []⟩⟩).1 =
      .ok ⟨"PINless", 8, 6⟩ [] →
      (8 : Int) = 8 ∧ (6 : Int) = 6) :=
  ⟨by decide,
   (c9_amended "PINless" 5 8
      ⟨true, true, 1, 1, 0, 124, 0, 1, [], 1, ⟨0, [], []⟩⟩ rfl rfl).1.mpr
     (by decide),
   fun h =>
     (c9_amended "PINless" 8 6
        ⟨true, true, 1, 1, 0, 124, 0, 1, [], 1, ⟨0, [], []⟩⟩ rfl rfl).2
       ⟨"PINless", 8, 6⟩ [] h⟩

/-- Claim C10: in any token list get_tokens returns, the token at index i has
its default flag set exactly when i equals the lDefaultToken value, so at
most one token in the list is marked default. -/
theorem c10_default_flag :
    ∀ (cfg : SDConfig) (lT lD r2 : Int) (recs : List TokenBasicRec)
      (errRet : Int) (errRec : TokenErrRec) (ts : List Token),
    (get_tokens cfg lT lD r2 recs errRet errRec).1 = .ok ts →
    (∀ (i : Nat) (h : i < ts.length),
      ((ts.get ⟨i, h⟩).is_default = true ↔ lD = (i : Int))) ∧
    (∀ (i j : Nat) (hi : i < ts.length) (hj : j < ts.length),
      (ts.get ⟨i, hi⟩).is_default = true →
      (ts.get ⟨j, hj⟩).is_default = true → i = j) := by
  intro cfg lT lD r2 recs errRet errRec ts hok
  have hbuild : ∀ (i : Nat) (h : i < ts.length),
      (ts.get ⟨i, h⟩).is_default = true ↔ lD = (i : Int) := by
    unfold get_tokens at hok
    split at hok
    · simp only [Except.ok.injEq] at hok
      subst hok
      intro i hi
      simp at hi
    · split at hok
      · simp at hok
      · split at hok
        · intro i hi
          rw [buildTokens_default cfg lD 0 recs ts hok i hi]
          simp
        · split at hok
          · rename_i heq
            intro i hi
            rw [buildTokens_default cfg lD 0 recs ts hok i hi]
            simp
          · split at hok
            · simp only [Except.ok.injEq] at hok
              subst hok
              intro i hi
              simp at hi
            · simp at hok
  refine ⟨hbuild, ?_⟩
  intro i j hi hj hdi hdj
  have h1 := (hbuild i hi).mp hdi
  have h2 := (hbuild j hj).mp hdj
  omega

/-- Claim C10 witness: a two-token enumeration with default index 1 marks only
the second token default. -/
theorem c10_default_flag_witness :
    ((get_tokens ⟨"PINless", 8, 8⟩ 2 1 1
        [⟨[49], [117], [], []⟩, ⟨[50], [118], [], []⟩] 1 ⟨0, [], []⟩).1 =
      .ok [⟨"1", some ⟨"PINless", 8, 8⟩, some "u", some [], some [], false, "PINless"⟩,
           ⟨"2", some ⟨"PINless", 8, 8⟩, some "v", some [], some [], true, "PINless"⟩]) ∧
    (((([⟨"1", some ⟨"PINless", 8, 8⟩, some "u", some [], some [], false, "PINless"⟩,
         ⟨"2", some ⟨"PINless", 8, 8⟩, some "v", some [], some [], true, "PINless"⟩] :
        List Token).get ⟨1, by decide⟩).is_default = true) ↔
      (1 : Int) = ((1 : Nat) : Int)) :=
  ⟨rfl,
   (c10_default_flag ⟨"PINless", 8, 8⟩ 2 1 1
      [⟨[49], [117], [], []⟩, ⟨[50], [118], [], []⟩] 1 ⟨0, [], []⟩
      [⟨"1", some ⟨"PINless", 8, 8⟩, some "u", some [], some [], false, "PINless"⟩,
       ⟨"2", some ⟨"PINless", 8, 8⟩, some "v", some [], some [], true, "PINless"⟩]
      rfl).1 1 (by decide)⟩

end Pysdtoken
